import Mathlib

/-!
Shallow embedding of `src/bin/fan-control.py` (a Raspberry Pi fan
controller written for Python 2) together with theorems settling the
frozen specification claims.

Modelling conventions:
* Python floats are modelled as `ℚ` (every literal the program meets is a
  small decimal, and the spec's reference arithmetic is real arithmetic).
* Python's `int(...)` truncation toward zero on a float is `pyInt`.
* The raw sensor value (one line of the sysfs file, millidegrees) is a
  `ℕ`; a line of the file that does not parse as an integer is modelled
  as `none` in `List (Option ℕ)`.
* A Python exception is modelled as `none` in an `Option` result
  (`parseRaw` returns `none` exactly when the source raises
  `ZeroDivisionError`, i.e. when `whole = r / 1000 = 0`).
* The `RPi.GPIO` actuator is an external collaborator (spec §6: consumed,
  not specified); its operations are modelled as total state
  transformers on the `Fan` record (`pin`, `pwmRunning`, `gpioSetup`,
  `gpioReleased` fields).
-/

namespace FanControl

/-- Python 2 `int(x)` applied to a float: truncation toward zero. -/
def pyInt (q : ℚ) : ℤ := if q < 0 then ⌈q⌉ else ⌊q⌋

/-- Embedding of `getDutyRatio(temp, high, low, duty_min=0)`
(src/bin/fan-control.py lines 59-68):
if `high < temp` return 100; if `temp < low` return 0; else
`dr = ((temp - low) / (high - low)) * (100 - duty_min) + duty_min` and
return `int(dr) if dr < 100 else 100`. Arguments are floats at every
call site (the config defaults and the sensor reading), modelled as `ℚ`. -/
def getDutyRatio (temp high low duty_min : ℚ) : ℤ :=
  if high < temp then 100
  else if temp < low then 0
  else if ((temp - low) / (high - low)) * (100 - duty_min) + duty_min < 100 then
    pyInt (((temp - low) / (high - low)) * (100 - duty_min) + duty_min)
  else 100

/-- Reference duty-ratio function written from the spec's words (§4.2):
saturate to 100 above `high`, to 0 below `low`, otherwise linear
interpolation truncated to integer and clamped to 100 when the raw value
reaches or exceeds 100. Stated separately from `getDutyRatio` so the two
can be compared. -/
def specDutyRatio (temp high low dutyMin : ℚ) : ℤ :=
  if temp > high then 100
  else if temp < low then 0
  else if 100 ≤ (temp - low) / (high - low) * (100 - dutyMin) + dutyMin then 100
  else pyInt ((temp - low) / (high - low) * (100 - dutyMin) + dutyMin)

/-- Number of decimal digits of `b`, via the decimal digit list; this is
the length of the text that Python's `"{}"` format produces for a
natural number. -/
def decLen (b : ℕ) : ℕ := (Nat.toDigits 10 b).length

/-- Value of Python's `float("{}.{}".format(a, b))` for naturals `a`, `b`:
the digits of `b` sit right of the decimal point. -/
def floatOfParts (a b : ℕ) : ℚ := (a : ℚ) + (b : ℚ) / 10 ^ decLen b

/-- Embedding of the per-line body of `getTemperature`
(src/bin/fan-control.py lines 51-54) on a raw integer `r`:
`temp1 = int(t)/1000`, `temp2 = int(t)/100` (Python 2 integer division),
`tempm = temp2 % temp1`, result `float("{}.{}".format(temp1, tempm))`.
When `r / 1000 = 0` Python raises `ZeroDivisionError` on the modulo,
modelled as `none`. -/
def parseRaw (r : ℕ) : Option ℚ :=
  if r / 1000 = 0 then none
  else some (floatOfParts (r / 1000) ((r / 100) % (r / 1000)))

/-- Embedding of the `for t in f:` loop of `getTemperature`
(src/bin/fan-control.py lines 49-56): each line overwrites `cpu_temp`;
a line that fails to parse (`none`, a `ValueError` from `int(t)`) or
whose reconstruction divides by zero aborts the whole read (`none`).
An empty source leaves `cpu_temp` unbound (`UnboundLocalError`), so the
accumulator starts at `none`. -/
def readLines : Option ℚ → List (Option ℕ) → Option ℚ
  | acc, [] => acc
  | _, none :: _ => none
  | _, some r :: rest =>
    match parseRaw r with
    | none => none
    | some v => readLines (some v) rest

/-- Result of `getTemperature` on a source holding the given lines. -/
def getTemperatureFrom (lines : List (Option ℕ)) : Option ℚ :=
  readLines none lines

/-- Kinds of exception that can escape the `try` block of `main`
(src/bin/fan-control.py lines 186-199). `ioError` is what `open` raises
on an unreadable sensor path, `valueError` what `int(t)` raises on a
non-numeric line, `zeroDivisionError` what the modulo raises when
`r / 1000 = 0`. -/
inductive PyError where
  | keyboardInterrupt
  | typeError
  | ioError
  | valueError
  | zeroDivisionError
  | otherError
deriving DecidableEq

/-- The sensor read failure the spec discusses: `open` on the sysfs path
raising `IOError`. -/
def sensorReadFailure : PyError := PyError.ioError

/-- Embedding of the `except` dispatch of `main`
(src/bin/fan-control.py lines 193-199): whether `fan.clean_up()` runs
for a given exception escaping the `try` block. `except
KeyboardInterrupt` and `except TypeError` call `fan.clean_up()`; the
final `except Exception` only logs. -/
def cleansUpOnError : PyError → Bool
  | PyError.keyboardInterrupt => true
  | PyError.typeError => true
  | _ => false

/-- The `pwm` sub-dictionary of the configuration (keys `freq`,
`duty_min`, `temp_min`, `temp_max`). -/
structure PwmConf where
  freq : ℚ
  duty_min : ℚ
  temp_min : ℚ
  temp_max : ℚ
deriving DecidableEq

/-- A resolved configuration dictionary. `hasModeKey` records whether
the key `'mode'` is present (its value is never read by the program:
`Fan.__init__` only tests membership). `pwm` is the `'pwm'` block when
that key is present. -/
structure Config where
  port : ℕ
  threshold : ℚ
  hasModeKey : Bool
  pwm : Option PwmConf
  interval : ℕ
deriving DecidableEq

/-- The module-level default `CONFIG` (src/bin/fan-control.py lines
25-35): port 12, threshold 70.0, a `pwm` block (freq 50.0, duty_min
70.0, temp_max 85.0, temp_min 65.0), interval 30 — and no `'mode'` key. -/
def defaultConfig : Config :=
  { port := 12
    threshold := 70
    hasModeKey := false
    pwm := some { freq := 50, duty_min := 70, temp_min := 65, temp_max := 85 }
    interval := 30 }

/-- A user-supplied YAML configuration: each top-level key may be absent.
`hasModeKey` records an explicit `'mode'` key in the user file. -/
structure UserConfig where
  port : Option ℕ
  threshold : Option ℚ
  hasModeKey : Bool
  pwm : Option PwmConf
  interval : Option ℕ

/-- Embedding of `loadConfig(config_file)` (src/bin/fan-control.py lines
151-165): with no file the default `CONFIG` is returned unchanged; with
a user file, `config[MODE] = PWM` is inserted when the user file has a
`'pwm'` key, then `config.update(user_conf)` lets every user key
override the default (the `'mode'` key is present afterwards exactly
when the user file had a `'pwm'` key or its own `'mode'` key; a user
`'pwm'` block replaces the default block whole). -/
def loadConfig : Option UserConfig → Config
  | none => defaultConfig
  | some u =>
    { port := u.port.getD defaultConfig.port
      threshold := u.threshold.getD defaultConfig.threshold
      hasModeKey := u.pwm.isSome || u.hasModeKey
      pwm := match u.pwm with
             | some p => some p
             | none => defaultConfig.pwm
      interval := u.interval.getD defaultConfig.interval }

/-- The two control strategies `self.control` can hold: the bound method
`on_off_control` or `pwm_control`. -/
inductive ControlMode where
  | onOff
  | pwm
deriving DecidableEq

/-- State of a `Fan` instance together with the hardware it owns.
`hasPwmChannel` is `self.pwm is not None`; `pwmRunning` is whether that
channel is started; `pin` the output level; `gpioSetup` whether
`GPIO.setup` has configured the pin; `gpioReleased` whether
`GPIO.cleanup()` has run; `control` which bound method `self.control`
holds; `pwmConf` is `self.config_pwm` (set only in the PWM branch);
`duty` the last duty cycle given to `ChangeDutyCycle`/`start`. -/
structure Fan where
  port : ℕ
  threshold : ℚ
  pwmConf : Option PwmConf
  hasPwmChannel : Bool
  pwmRunning : Bool
  duty : ℤ
  pin : Bool
  gpioSetup : Bool
  gpioReleased : Bool
  control : ControlMode
deriving DecidableEq

/-- Embedding of `Fan.__init__(config)` (src/bin/fan-control.py lines
75-89): `GPIO.setmode`; `GPIO.setup(port, OUT)` (hardware claimed
unconditionally); `self.pwm = None`; `self.control = on_off_control`;
then, when BOTH keys `'mode'` and `'pwm'` are present
(`all(k in config for k in (MODE, PWM))`), store `config['pwm']`,
create the PWM channel, start it at duty 0 and switch `self.control` to
`pwm_control`. There is no validation of the pwm bounds and no failure
path of its own. -/
def fanInit (c : Config) : Fan :=
  { port := c.port
    threshold := c.threshold
    pwmConf := if c.hasModeKey && c.pwm.isSome then c.pwm else none
    hasPwmChannel := c.hasModeKey && c.pwm.isSome
    pwmRunning := c.hasModeKey && c.pwm.isSome
    duty := 0
    pin := false
    gpioSetup := true
    gpioReleased := false
    control := if c.hasModeKey && c.pwm.isSome then ControlMode.pwm else ControlMode.onOff }

/-- A configuration that selects PWM mode (both keys present) with
inverted bounds: `temp_min = 85 ≥ temp_max = 65`. -/
def badPwmConfig : Config :=
  { port := 12
    threshold := 70
    hasModeKey := true
    pwm := some { freq := 50, duty_min := 70, temp_min := 85, temp_max := 65 }
    interval := 30 }

/-- Embedding of `Fan.clean_up` (src/bin/fan-control.py lines 101-107):
`if self.pwm is not None: self.pwm.stop()`; `self.off()` (pin driven
low); `GPIO.cleanup()`. -/
def cleanUp (f : Fan) : Fan :=
  { f with
    pwmRunning := if f.hasPwmChannel then false else f.pwmRunning
    pin := false
    gpioReleased := true }

/-- Embedding of `Fan.on_off_control(cpu_temp)` (src/bin/fan-control.py
lines 109-115): `if cpu_temp > self.config[TEMP_THRESHOLD]: self.on()
else: self.off()`. -/
def on_off_control (f : Fan) (cpu_temp : ℚ) : Fan :=
  { f with pin := decide (f.threshold < cpu_temp) }

/-- Embedding of `Fan.pwm_control(cpu_temp)` (src/bin/fan-control.py
lines 117-125): compute `getDutyRatio(cpu_temp, temp_max, temp_min,
duty_min)` from `self.config_pwm` and pass it to `ChangeDutyCycle`.
For fans built by `fanInit`, `pwmConf` is `some` whenever `control` is
`pwm`; the `none` branch (an `AttributeError` in Python, unreachable by
construction) leaves the state unchanged. -/
def pwm_control (f : Fan) (cpu_temp : ℚ) : Fan :=
  match f.pwmConf with
  | some p => { f with duty := getDutyRatio cpu_temp p.temp_max p.temp_min p.duty_min }
  | none => f

/-- One iteration's actuation in `Fan.run`: dispatch through the bound
method stored in `self.control` at construction time. -/
def applyControl (f : Fan) (cpu_temp : ℚ) : Fan :=
  match f.control with
  | ControlMode.onOff => on_off_control f cpu_temp
  | ControlMode.pwm => pwm_control f cpu_temp

/-- Embedding of the loop of `Fan.run` (src/bin/fan-control.py lines
127-131) over a finite prefix of temperature readings. -/
def runList (f : Fan) (temps : List ℚ) : Fan :=
  temps.foldl applyControl f

end FanControl

namespace FanControl

/-! ### Helper lemmas -/

/-- Truncation toward zero agrees with the floor on nonnegative rationals. -/
theorem pyInt_of_nonneg (q : ℚ) (h : 0 ≤ q) : pyInt q = ⌊q⌋ := by
  rw [pyInt, if_neg (not_lt.mpr h)]

/-- Truncation of a rational below 100 never exceeds 100. -/
theorem pyInt_le_100 (q : ℚ) (h : q < 100) : pyInt q ≤ 100 := by
  rw [pyInt]
  split_ifs with h0
  · have h1 : ⌈q⌉ ≤ ⌈(0:ℚ)⌉ := Int.ceil_le_ceil h0.le
    have h2 : ⌈(0:ℚ)⌉ = 0 := by norm_num
    omega
  · have h1 : (⌊q⌋ : ℚ) ≤ q := Int.floor_le q
    have h2 : ⌊q⌋ < 100 := by exact_mod_cast h1.trans_lt h
    omega

/-- The source's duty-ratio computation and the spec's reference function
agree on every input: the branch conditions and the truncate-and-clamp
steps are the same function written two ways. -/
theorem gdr_eq_spec (temp high low m : ℚ) :
    getDutyRatio temp high low m = specDutyRatio temp high low m := by
  rw [getDutyRatio, specDutyRatio]
  split_ifs <;> first | rfl | linarith

/-- In the interpolation branch the raw duty value is at least `duty_min`. -/
theorem dr_ge_m {temp high low m : ℚ} (hlh : low < high) (h2 : ¬temp < low) (hm1 : m ≤ 100) :
    m ≤ ((temp - low) / (high - low)) * (100 - m) + m := by
  have hr : 0 ≤ (temp - low) / (high - low) :=
    div_nonneg (by linarith [not_lt.mp h2]) (by linarith)
  have := mul_nonneg hr (by linarith : (0:ℚ) ≤ 100 - m)
  linarith

/-- The duty ratio is nonnegative for calibration values in range. -/
theorem gdr_nonneg (temp high low m : ℚ) (hlh : low < high) (hm0 : 0 ≤ m) (hm1 : m ≤ 100) :
    0 ≤ getDutyRatio temp high low m := by
  rw [getDutyRatio]
  split_ifs with h1 h2 h3
  · norm_num
  · exact le_refl 0
  · have h0 : (0:ℚ) ≤ ((temp - low) / (high - low)) * (100 - m) + m :=
      le_trans hm0 (dr_ge_m hlh h2 hm1)
    rw [pyInt_of_nonneg _ h0]
    exact Int.floor_nonneg.mpr h0
  · norm_num

/-- The duty ratio never exceeds 100. -/
theorem gdr_le_100 (temp high low m : ℚ) : getDutyRatio temp high low m ≤ 100 := by
  rw [getDutyRatio]
  split_ifs with h1 h2 h3
  · exact le_refl 100
  · norm_num
  · exact pyInt_le_100 _ h3
  · exact le_refl 100

/-- The raw (untruncated) duty value is monotone in the temperature. -/
theorem dr_mono {low high m : ℚ} (t1 t2 : ℚ) (hlh : low < high) (hm1 : m ≤ 100) (ht : t1 ≤ t2) :
    ((t1 - low) / (high - low)) * (100 - m) + m ≤
      ((t2 - low) / (high - low)) * (100 - m) + m := by
  have hden : (0:ℚ) ≤ high - low := by linarith
  have h1 : (t1 - low) / (high - low) ≤ (t2 - low) / (high - low) :=
    div_le_div_of_nonneg_right (by linarith) hden
  have h2 := mul_le_mul_of_nonneg_right h1 (by linarith : (0:ℚ) ≤ 100 - m)
  linarith

/-! ### Claim C5 -/

/-- C5: for every `temp`, `low < high` and `0 ≤ dutyMin ≤ 100`,
`getDutyRatio(temp, high, low, dutyMin)` equals the spec's reference
function (saturate to 100 above `high`, to 0 below `low`, otherwise
truncated linear interpolation clamped at 100); in particular
`getDutyRatio 75 85 65 70 = 85`, and at `temp = low` the result is the
floor value `dutyMin` (for an integral `dutyMin`). -/
theorem getDutyRatio_matches_spec :
    (∀ temp low high m : ℚ, low < high → 0 ≤ m → m ≤ 100 →
        getDutyRatio temp high low m = specDutyRatio temp high low m) ∧
      getDutyRatio 75 85 65 70 = 85 ∧
      ∀ (low high : ℚ) (m : ℤ), low < high → 0 ≤ m → m ≤ 100 →
        getDutyRatio low high low (m : ℚ) = m := by
  refine ⟨fun temp low high m _ _ _ => gdr_eq_spec temp high low m, ?_, ?_⟩
  · rw [getDutyRatio]
    norm_num
    rw [pyInt]
    norm_num
  · intro low high m hlh hm0 hm1
    have hn1 : ¬high < low := not_lt.mpr hlh.le
    have hn2 : ¬low < low := lt_irrefl low
    have hdr : ((low - low) / (high - low)) * (100 - (m:ℚ)) + m = (m:ℚ) := by
      rw [sub_self, zero_div, zero_mul, zero_add]
    rw [getDutyRatio, if_neg hn1, if_neg hn2, hdr]
    by_cases hc : (m:ℚ) < 100
    · rw [if_pos hc, pyInt_of_nonneg _ (by exact_mod_cast hm0), Int.floor_intCast]
    · rw [if_neg hc]
      have h100 : (100:ℤ) ≤ m := by exact_mod_cast not_lt.mp hc
      omega

/-- C5 witness: the refinement instantiated at the spec's own scenario
`low = 65, high = 85, dutyMin = 70, temp = 75`. -/
theorem getDutyRatio_matches_spec_witness :
    getDutyRatio 75 85 65 70 = specDutyRatio 75 85 65 70 :=
  getDutyRatio_matches_spec.1 75 65 85 70 (by norm_num) (by norm_num) (by norm_num)

/-! ### Claim C6 -/

/-- C6: for fixed `low < high` and fixed `dutyMin` in the configuration's
range `[0, 100]`, `getDutyRatio` is monotone non-decreasing in the
temperature. -/
theorem getDutyRatio_monotone (low high m t1 t2 : ℚ) (hlh : low < high)
    (hm0 : 0 ≤ m) (hm1 : m ≤ 100) (ht : t1 ≤ t2) :
    getDutyRatio t1 high low m ≤ getDutyRatio t2 high low m := by
  by_cases h1 : high < t2
  · have h : getDutyRatio t2 high low m = 100 := by rw [getDutyRatio, if_pos h1]
    rw [h]
    exact gdr_le_100 t1 high low m
  · by_cases h2 : t1 < low
    · have hn : ¬high < t1 := not_lt.mpr (le_of_lt (lt_trans h2 hlh))
      have h : getDutyRatio t1 high low m = 0 := by rw [getDutyRatio, if_neg hn, if_pos h2]
      rw [h]
      exact gdr_nonneg t2 high low m hlh hm0 hm1
    · have h1' : ¬high < t1 := fun hc => h1 (lt_of_lt_of_le hc ht)
      have h2' : ¬t2 < low := fun hc => h2 (lt_of_le_of_lt ht hc)
      rw [getDutyRatio, getDutyRatio, if_neg h1', if_neg h2, if_neg h1, if_neg h2']
      have hd := dr_mono t1 t2 hlh hm1 ht
      have h0 : (0:ℚ) ≤ ((t1 - low) / (high - low)) * (100 - m) + m :=
        le_trans hm0 (dr_ge_m hlh h2 hm1)
      by_cases hc2 : ((t2 - low) / (high - low)) * (100 - m) + m < 100
      · rw [if_pos hc2, if_pos (lt_of_le_of_lt hd hc2)]
        rw [pyInt_of_nonneg _ h0, pyInt_of_nonneg _ (le_trans h0 hd)]
        exact Int.floor_le_floor hd
      · rw [if_neg hc2]
        split_ifs with hc1
        · exact pyInt_le_100 _ hc1
        · exact le_refl 100

/-- C6 witness: monotonicity at the concrete readings 70 and 80 with the
default calibration. -/
theorem getDutyRatio_monotone_witness :
    getDutyRatio 70 85 65 70 ≤ getDutyRatio 80 85 65 70 :=
  getDutyRatio_monotone 65 85 70 70 80 (by norm_num) (by norm_num) (by norm_num) (by norm_num)

/-! ### Claim C7 -/

/-- Python prints a natural number below 10 with one digit. -/
theorem decLen_of_lt_ten (b : ℕ) (h : b < 10) : decLen b = 1 := by
  interval_cases b <;> rfl

/-- For a raw value of at least four digits the fractional part
`(r / 100) mod (r / 1000)` is a single decimal digit. -/
theorem frac_lt_ten (r : ℕ) (_h : 1000 ≤ r) : r / 100 % (r / 1000) < 10 := by
  have hw : r / 100 / 10 = r / 1000 := by
    rw [Nat.div_div_eq_div_mul]
  have hd : r / 100 % 10 < 10 := Nat.mod_lt _ (by norm_num)
  have hsplit : 10 * (r / 100 / 10) + r / 100 % 10 = r / 100 := Nat.div_add_mod (r / 100) 10
  calc r / 100 % (r / 1000)
      = (r / 100 % 10 + r / 1000 * 10) % (r / 1000) := by
        congr 1
        omega
    _ = r / 100 % 10 % (r / 1000) := Nat.add_mul_mod_self_left _ _ _
    _ ≤ r / 100 % 10 := Nat.mod_le _ _
    _ < 10 := hd

/-- A raw value of at least four digits has a nonzero whole part. -/
theorem div_1000_ne_zero (r : ℕ) (h : 1000 ≤ r) : r / 1000 ≠ 0 := by
  have h1 : 1 ≤ r / 1000 := (Nat.le_div_iff_mul_le (by norm_num)).mpr (by omega)
  omega

/-- For `1000 ≤ r` the per-line reconstruction succeeds and concatenating
the single fractional digit equals adding it over ten. -/
theorem parseRaw_eq (r : ℕ) (h : 1000 ≤ r) :
    parseRaw r = some (((r / 1000 : ℕ) : ℚ) + ((r / 100 % (r / 1000) : ℕ) : ℚ) / 10) := by
  rw [parseRaw, if_neg (div_1000_ne_zero r h), floatOfParts,
    decLen_of_lt_ten _ (frac_lt_ten r h), pow_one]

/-- C7: for every raw integer `r ≥ 1000`, `getTemperature` reconstructs
the reading by concatenating `whole = r / 1000` and
`fractionalPart = (r / 100) mod whole` as decimal text (the fractional
part is one digit, so the value is `whole + fractionalPart / 10`); in
particular `r = 45123` gives `45.1`. -/
theorem parseRaw_concatenation :
    (∀ r : ℕ, 1000 ≤ r →
        parseRaw r = some (((r / 1000 : ℕ) : ℚ) + ((r / 100 % (r / 1000) : ℕ) : ℚ) / 10)) ∧
      parseRaw 45123 = some (451 / 10) := by
  refine ⟨parseRaw_eq, ?_⟩
  rw [parseRaw]
  norm_num
  rw [floatOfParts]
  have h : decLen 1 = 1 := rfl
  rw [h]
  norm_num

/-- C7 witness: the reconstruction rule applied at the concrete raw value
52000 (whole 52, fractional part `520 mod 52 = 0`). -/
theorem parseRaw_concatenation_witness :
    parseRaw 52000 =
      some (((52000 / 1000 : ℕ) : ℚ) + ((52000 / 100 % (52000 / 1000) : ℕ) : ℚ) / 10) :=
  parseRaw_concatenation.1 52000 (by norm_num)

/-! ### Claim C8 -/

/-- C8 counterexample: at the concrete raw value 500 (fewer than four
digits) the computation does NOT return a float value: `whole = 0` and
the modulo by zero raises `ZeroDivisionError` (modelled as `none`),
refuting the claim that the reconstruction is total. -/
theorem parseRaw_small_raw_aborts : parseRaw 500 = none := rfl

/-- C8 amended: for every raw integer `r < 1000` the reconstruction
aborts with `ZeroDivisionError` (the truncation `whole = r / 1000 = 0`
makes `(r / 100) mod whole` a modulo by zero), so `getTemperature`
returns no value at all rather than a value of the wrong magnitude. -/
theorem parseRaw_none_of_small : ∀ r : ℕ, r < 1000 → parseRaw r = none := by
  intro r h
  rw [parseRaw, if_pos (Nat.div_eq_of_lt h)]

/-- C8 witness: the amended claim at the concrete raw value 999. -/
theorem parseRaw_none_of_small_witness : parseRaw 999 = none :=
  parseRaw_none_of_small 999 (by norm_num)

/-! ### Claim C9 -/

/-- Stepping the read loop past a line that parses to `v` resets the
accumulator to `v`. -/
theorem readLines_cons_parsed {r : ℕ} {v : ℚ} (h : parseRaw r = some v)
    (acc : Option ℚ) (rest : List (Option ℕ)) :
    readLines acc (Option.some r :: rest) = readLines (some v) rest := by
  have hstep : readLines acc (Option.some r :: rest) =
      match parseRaw r with
      | none => none
      | some v => readLines (some v) rest := rfl
  rw [hstep, h]

/-- When every line is a well-formed raw value, the loop returns the last
line's reconstruction whatever the accumulator held. -/
theorem readLines_all_ok (rs : List ℕ) :
    ∀ (acc : Option ℚ) (r : ℕ), (∀ x ∈ rs, 1000 ≤ x) → 1000 ≤ r →
      readLines acc ((rs ++ [r]).map Option.some) = parseRaw r := by
  induction rs with
  | nil =>
    intro acc r _ hr
    have hv := parseRaw_eq r hr
    simp only [List.nil_append, List.map_cons, List.map_nil]
    rw [readLines_cons_parsed hv, hv]
    rfl
  | cons x xs ih =>
    intro acc r hall hr
    have hx : 1000 ≤ x := hall x (List.mem_cons_self x xs)
    simp only [List.cons_append, List.map_cons]
    rw [readLines_cons_parsed (parseRaw_eq x hx)]
    exact ih _ r (fun y hy => hall y (List.mem_cons_of_mem x hy)) hr

/-- C9 amended: when every line of the source parses successfully (each
raw value has at least four digits), the value reconstructed from the
LAST line wins, earlier lines not affecting the result; a line that
fails to parse, however, aborts the whole read (see the
counterexample), rather than being skipped. -/
theorem last_line_wins_when_all_parse :
    ∀ (rs : List ℕ) (r : ℕ), (∀ x ∈ rs, 1000 ≤ x) → 1000 ≤ r →
      getTemperatureFrom ((rs ++ [r]).map Option.some) = parseRaw r :=
  fun rs r hall hr => readLines_all_ok rs none r hall hr

/-- C9 witness: two well-formed lines, the second one's value returned. -/
theorem last_line_wins_witness :
    getTemperatureFrom [Option.some 45123, Option.some 52000] = parseRaw 52000 :=
  last_line_wins_when_all_parse [45123] 52000 (by norm_num) (by norm_num)

/-- C9 counterexample: a source whose first line parses to `45.1` and
whose second line fails to parse returns no value at all (the exception
propagates), while the claim as stated says the last successfully
parsed line (the first) should win. -/
theorem failed_line_discards_result :
    getTemperatureFrom [Option.some 45123, none] = none ∧ parseRaw 45123 = some (451 / 10) := by
  refine ⟨rfl, ?_⟩
  rw [parseRaw]
  norm_num
  rw [floatOfParts]
  have h : decLen 1 = 1 := rfl
  rw [h]
  norm_num

/-! ### Claim C1 -/

/-- C1 counterexample: a sensor read failure (`IOError` from
`getTemperature`) escaping the control loop reaches the final
`except Exception` clause of `main`, which logs and does NOT call
`clean_up`, refuting the claim that every error triggers cleanup
before exit. -/
theorem mainCleanup_not_called_on_ioError : cleansUpOnError sensorReadFailure = false := rfl

/-- C1 amended: `main` invokes `fan.clean_up()` exactly when the error
escaping the loop is `KeyboardInterrupt` or `TypeError`; every other
error — in particular a sensor read failure in `getTemperature` — is
only logged by the generic handler and the process exits without
cleanup. -/
theorem mainCleanup_exactly_for_interrupt_and_typeError :
    ∀ e : PyError, cleansUpOnError e = true ↔
      e = PyError.keyboardInterrupt ∨ e = PyError.typeError := by
  intro e
  cases e <;> simp [cleansUpOnError]

/-! ### Claim C2 -/

/-- C2 counterexample: at the concrete configuration that selects PWM
mode with inverted bounds (`temp_min = 85 ≥ temp_max = 65`),
construction succeeds (`fanInit` is total, no `ConfigurationError`
exists in the program) and hardware IS claimed: the GPIO pin is set up
and the PWM channel is created and started. -/
theorem fanInit_bad_bounds_claims_hardware :
    (fanInit badPwmConfig).gpioSetup = true ∧ (fanInit badPwmConfig).pwmRunning = true :=
  ⟨rfl, rfl⟩

/-- C2 amended: `Fan.__init__` performs no validation of the PWM bounds:
for every configuration it claims the GPIO pin, it creates a PWM
channel exactly when both the `mode` and `pwm` keys are present, and in
particular the inverted-bounds configuration yields a fully constructed
PWM-mode controller rather than a `ConfigurationError`. -/
theorem fanInit_no_validation :
    (∀ c : Config, (fanInit c).gpioSetup = true) ∧
      (∀ c : Config, (fanInit c).hasPwmChannel = (c.hasModeKey && c.pwm.isSome)) ∧
      (fanInit badPwmConfig).hasPwmChannel = true :=
  ⟨fun _ => rfl, fun _ => rfl, rfl⟩

/-! ### Claim C3 -/

/-- C3: `clean_up` is idempotent — a second call produces exactly the
same terminal state as the first (and, being a total function of the
state, raises no error): the pin is driven low, the GPIO subsystem is
released, and for every constructed controller the PWM channel is
stopped. -/
theorem cleanUp_idempotent :
    (∀ f : Fan, cleanUp (cleanUp f) = cleanUp f) ∧
      (∀ f : Fan, (cleanUp f).pin = false ∧ (cleanUp f).gpioReleased = true) ∧
      ∀ c : Config, (cleanUp (fanInit c)).pwmRunning = false := by
  refine ⟨?_, fun f => ⟨rfl, rfl⟩, ?_⟩
  · intro f
    simp only [cleanUp]
    split_ifs <;> rfl
  · intro c
    simp only [cleanUp, fanInit]
    split_ifs with h <;> simp_all

/-! ### Claim C4 -/

/-- One control iteration never changes which strategy `self.control`
holds. -/
theorem applyControl_preserves_control (f : Fan) (t : ℚ) :
    (applyControl f t).control = f.control := by
  cases hc : f.control <;> cases hp : f.pwmConf <;>
    simp [applyControl, on_off_control, pwm_control, hc, hp]

/-- The strategy selected at construction is still in force after any
finite run of the loop. -/
theorem runList_preserves_control (f : Fan) (ts : List ℚ) :
    (runList f ts).control = f.control := by
  induction ts generalizing f with
  | nil => rfl
  | cons t ts ih =>
    calc (runList f (t :: ts)).control
        = (runList (applyControl f t) ts).control := rfl
      _ = (applyControl f t).control := ih (applyControl f t)
      _ = f.control := applyControl_preserves_control f t

/-- C4 counterexample: the resolved default configuration (no user file)
DOES contain a `pwm` block, yet the constructed controller operates in
on/off mode — because the default dictionary carries no `mode` key —
refuting the claim that a `pwm` block alone implies PWM mode. -/
theorem default_config_pwm_but_onOff :
    (loadConfig none).pwm.isSome = true ∧
      (fanInit (loadConfig none)).control = ControlMode.onOff :=
  ⟨rfl, rfl⟩

/-- C4 amended: the controller operates in PWM mode iff the resolved
configuration contains BOTH the `mode` key and a `pwm` block;
`loadConfig` inserts the `mode` key exactly when the user file has a
`pwm` block (or carries a `mode` key itself), so the default
configuration — whose `pwm` block is always present — yields on/off
mode. The strategy is fixed at construction and never re-evaluated:
running the loop leaves `self.control` unchanged. -/
theorem pwm_mode_requires_mode_key :
    (∀ u : Option UserConfig,
        (fanInit (loadConfig u)).control = ControlMode.pwm ↔
          (loadConfig u).hasModeKey = true ∧ (loadConfig u).pwm.isSome = true) ∧
      (∀ uc : UserConfig, (loadConfig (some uc)).hasModeKey = (uc.pwm.isSome || uc.hasModeKey)) ∧
      ∀ (f : Fan) (temps : List ℚ), (runList f temps).control = f.control := by
  refine ⟨?_, fun uc => rfl, fun f temps => runList_preserves_control f temps⟩
  intro u
  cases hm : (loadConfig u).hasModeKey <;> cases hp : (loadConfig u).pwm.isSome <;>
    simp [fanInit, hm, hp]

/-! ### Claim C10 -/

/-- C10: in on/off mode the pin is driven to logical-on exactly when the
reading strictly exceeds the threshold; at or below the threshold —
including exact equality — the pin is driven to logical-off. -/
theorem on_off_control_strict_threshold :
    (∀ (f : Fan) (t : ℚ), (on_off_control f t).pin = true ↔ f.threshold < t) ∧
      (∀ (f : Fan) (t : ℚ), t ≤ f.threshold → (on_off_control f t).pin = false) ∧
      ∀ f : Fan, (on_off_control f f.threshold).pin = false := by
  refine ⟨?_, ?_, ?_⟩
  · intro f t
    simp [on_off_control]
  · intro f t h
    simpa [on_off_control] using h
  · intro f
    simp [on_off_control]

/-- C10 witness: the default controller at a reading equal to its
threshold drives the pin off. -/
theorem on_off_control_strict_threshold_witness :
    (on_off_control (fanInit (loadConfig none)) 70).pin = false :=
  on_off_control_strict_threshold.2.1 (fanInit (loadConfig none)) 70 (by decide)

end FanControl
